import Mathlib

/-!
Shallow embedding of the adjuster Lambda core
(`src/stacks/lambda_functions/adjuster/index.py`) and proofs about it.

Python's JSON-derived dynamic values are modelled by `PyVal` (json.loads
output: null, bool, number, string, array, object with string keys; numbers
are modelled as exact rationals).  Fallible Python code (code that can raise)
is modelled with `Except`; external services (S3, Bedrock, Pillow decoding)
are modelled as explicit stub parameters.
-/

namespace Adjuster

/-- A JSON-derived Python value (output shape of `json.loads`). -/
inductive PyVal where
  | none : PyVal
  | bool : Bool → PyVal
  | num : ℚ → PyVal
  | str : String → PyVal
  | list : List PyVal → PyVal
  | dict : List (String × PyVal) → PyVal

/-- Python `d.get(k)` on a dict: first binding for `k`, if any. -/
def dlookup (d : List (String × PyVal)) (k : String) : Option PyVal :=
  (d.find? (fun p => p.1 == k)).map (fun p => p.2)

/-- Python `d.get(k, dflt)` on a dict. -/
def dgetD (d : List (String × PyVal)) (k : String) (dflt : PyVal) : PyVal :=
  (dlookup d k).getD dflt

/-- Characters treated as whitespace by Python's `str.strip()` (ASCII part). -/
def isPyWs (c : Char) : Bool :=
  c = ' ' ∨ c = '\t' ∨ c = '\n' ∨ c = '\r' ∨ c = '\x0b' ∨ c = '\x0c'

/-- Python `str.strip()` on a character list. -/
def stripChars (l : List Char) : List Char :=
  ((l.dropWhile isPyWs).reverse.dropWhile isPyWs).reverse

/-- Python `str.strip()`. -/
def pyStrip (s : String) : String := ⟨stripChars s.data⟩

/-- Python `str.lower()` on one character (ASCII range, which is all the
decision labels use). -/
def lowerChar (c : Char) : Char :=
  if 'A' ≤ c ∧ c ≤ 'Z' then Char.ofNat (c.toNat + 32) else c

/-- Python `str.lower()` (ASCII range). -/
def pyLower (s : String) : String := ⟨s.data.map lowerChar⟩

/-- Python `str(v)`.  Atomic cases follow CPython (`None`, `True`, `False`,
the string itself); the rendering of numbers, lists and dicts is modelled
abstractly by Lean's `toString`/a fixed tag — the code only feeds those
renderings into the decision-label membership test (where any rendering
other than the two labels behaves identically) and into record fields
(where only determinism matters). -/
def pyStr : PyVal → String
  | .none => "None"
  | .bool true => "True"
  | .bool false => "False"
  | .num q => toString q
  | .str s => s
  | .list _ => "[...]"
  | .dict _ => "\x7b...\x7d"

/-- Value of an ASCII digit character. -/
def digitVal (c : Char) : Option ℕ :=
  if '0' ≤ c ∧ c ≤ '9' then some (c.toNat - 48) else Option.none

/-- Split a leading run of digits off a character list. -/
def takeDigits : List Char → (List ℕ × List Char)
  | [] => ([], [])
  | c :: rest =>
    match digitVal c with
    | some d => let p := takeDigits rest; (d :: p.1, p.2)
    | Option.none => ([], c :: rest)

/-- Numeric value of a digit list read most-significant first. -/
def natOfDigits (ds : List ℕ) : ℕ := ds.foldl (fun a d => a * 10 + d) 0

/-- Python `float(s)` for a string argument: optional surrounding whitespace,
optional sign, decimal digits with an optional fractional part and an
optional exponent.  (The `inf`/`nan`/underscore spellings CPython also
accepts are not modelled; no claim mentions them.) -/
def strToFloat (s : String) : Option ℚ :=
  let cs0 := stripChars s.data
  let sp : ℚ × List Char :=
    match cs0 with
    | '+' :: r => (1, r)
    | '-' :: r => (-1, r)
    | r => (1, r)
  let ip := takeDigits sp.2
  let fp : List ℕ × List Char :=
    match ip.2 with
    | '.' :: r => takeDigits r
    | r => ([], r)
  if ip.1 = [] ∧ fp.1 = [] then Option.none
  else
    let mantissa : ℚ := (natOfDigits ip.1 : ℚ) + (natOfDigits fp.1 : ℚ) / ((10 : ℚ) ^ fp.1.length)
    match fp.2 with
    | [] => some (sp.1 * mantissa)
    | e :: r =>
      if e = 'e' ∨ e = 'E' then
        let es : ℤ × List Char :=
          match r with
          | '+' :: r2 => (1, r2)
          | '-' :: r2 => (-1, r2)
          | r2 => (1, r2)
        let ed := takeDigits es.2
        if ed.1 = [] ∨ ed.2 ≠ [] then Option.none
        else some (sp.1 * mantissa * (10 : ℚ) ^ (es.1 * (natOfDigits ed.1 : ℤ)))
      else Option.none

/-- Python `float(v)` on a dynamic value: numbers pass through, booleans
become 0/1, strings are parsed, everything else raises
`TypeError`/`ValueError` (modelled as `Option.none`). -/
def pyFloat : PyVal → Option ℚ
  | .num q => some q
  | .bool true => some 1
  | .bool false => some 0
  | .str s => strToFloat s
  | _ => Option.none

/-- Python `round(q)` to an integer: round half to even (banker's rounding),
on the exact rational value. -/
def pyRoundInt (q : ℚ) : ℤ :=
  if q - (⌊q⌋ : ℚ) < 1 / 2 then ⌊q⌋
  else if 1 / 2 < q - (⌊q⌋ : ℚ) then ⌊q⌋ + 1
  else if ⌊q⌋ % 2 = 0 then ⌊q⌋ else ⌊q⌋ + 1

/-- Python `round(q, 6)`. -/
def pyRound6 (q : ℚ) : ℚ := ((pyRoundInt (q * 1000000)) : ℚ) / 1000000

/-- The clamp `max(0.0, min(1.0, q))` from `_normalize_bbox`. -/
def clamp01 (q : ℚ) : ℚ := max 0 (min 1 q)

/-- A normalized bounding box (the four-field dict `_normalize_bbox`
returns). -/
structure BBox where
  x_min : ℚ
  y_min : ℚ
  x_max : ℚ
  y_max : ℚ
deriving DecidableEq, Repr

/-- Embeds `_normalize_bbox` from `index.py`: reject non-dicts and unparsable
coordinates, clamp each coordinate to [0,1], discard boxes with
non-positive width or height after clamping, round the survivors to six
decimal places. -/
def normalize_bbox (raw_bbox : PyVal) : Option BBox :=
  match raw_bbox with
  | .dict d =>
    match pyFloat (dgetD d "x_min" .none), pyFloat (dgetD d "y_min" .none),
          pyFloat (dgetD d "x_max" .none), pyFloat (dgetD d "y_max" .none) with
    | some px0, some py0, some px1, some py1 =>
      let x_min := clamp01 px0
      let y_min := clamp01 py0
      let x_max := clamp01 px1
      let y_max := clamp01 py1
      if x_max ≤ x_min ∨ y_max ≤ y_min then Option.none
      else some ⟨pyRound6 x_min, pyRound6 y_min, pyRound6 x_max, pyRound6 y_max⟩
    | _, _, _, _ => Option.none
  | _ => Option.none

/-- The decision-label step of `_normalize_decisions`:
`str(home.get("decision","")).strip().lower()`, kept when it is one of the
two accepted labels and coerced to `"needs_human_review"` otherwise. -/
def normalizeDecisionLabel (v : PyVal) : String :=
  let decision := pyLower (pyStrip (pyStr v))
  if decision = "auto_approved" ∨ decision = "needs_human_review" then decision
  else "needs_human_review"

/-- The fallback id `f"house-{idx:03d}"` (zero-padded to three digits). -/
def houseIdFallback (idx : ℕ) : String :=
  "house-" ++ (if idx < 10 then "00" ++ toString idx
               else if idx < 100 then "0" ++ toString idx
               else toString idx)

/-- One element of the normalized `homes` list built by
`_normalize_decisions`. -/
structure NormalizedDecision where
  house_id : String
  decision : String
  has_5ft_inclusion_zone : PyVal
  confidence : ℚ
  reason : String
  bbox : Option BBox

/-- The recomputed `summary` of `_normalize_decisions`. -/
structure Summary where
  total_homes : ℕ
  auto_approved_count : ℕ
  needs_human_review_count : ℕ
deriving DecidableEq, Repr

/-- The return value of `_normalize_decisions`. -/
structure DecisionSet where
  summary : Summary
  homes : List NormalizedDecision

/-- The per-home body of the `for idx, home in enumerate(homes, start=1)`
loop of `_normalize_decisions`, for a home that is a dict. -/
def normalizeHome (idx : ℕ) (home : List (String × PyVal)) : NormalizedDecision :=
  { house_id := pyStr (dgetD home "house_id" (.str (houseIdFallback idx)))
    decision := normalizeDecisionLabel (dgetD home "decision" (.str ""))
    has_5ft_inclusion_zone := dgetD home "has_5ft_inclusion_zone" .none
    confidence := (pyFloat (dgetD home "confidence" (.num 0))).getD 0
    reason := pyStr (dgetD home "reason" (.str "No reason provided by model"))
    bbox := normalize_bbox (dgetD home "bbox" .none) }

/-- Python iteration over a dynamic value: lists yield their elements,
strings yield their characters (as one-character strings), dicts yield
their keys; `None`, booleans and numbers raise `TypeError`. -/
def pyIter : PyVal → Except String (List PyVal)
  | .list l => .ok l
  | .str s => .ok (s.data.map (fun c => PyVal.str ⟨[c]⟩))
  | .dict d => .ok (d.map (fun p => PyVal.str p.1))
  | _ => .error "TypeError: object is not iterable"

/-- The loop of `_normalize_decisions`: each iterated element is accessed
with `.get(...)`, which raises `AttributeError` on non-dict elements. -/
def normalizeHomes : ℕ → List PyVal → Except String (List NormalizedDecision)
  | _, [] => .ok []
  | idx, it :: rest =>
    match it with
    | .dict d =>
      match normalizeHomes (idx + 1) rest with
      | .ok tl => .ok (normalizeHome idx d :: tl)
      | .error e => .error e
    | _ => .error "AttributeError: object has no attribute get"

/-- The expression `raw.get("homes", []) if isinstance(raw, dict) else []`. -/
def homesField (raw : PyVal) : PyVal :=
  match raw with
  | .dict d => dgetD d "homes" (.list [])
  | _ => .list []

/-- Embeds `_normalize_decisions` from `index.py`.  The summary is recomputed from
the normalized homes list; exceptions the Python loop can raise
(iterating a non-iterable `homes`, `.get` on a non-dict element) are
modelled with `Except.error`. -/
def normalize_decisions (raw : PyVal) : Except String DecisionSet :=
  match pyIter (homesField raw) with
  | .error e => .error e
  | .ok items =>
    match normalizeHomes 1 items with
    | .error e => .error e
    | .ok normalized =>
      let auto_count := (normalized.filter (fun h => h.decision == "auto_approved")).length
      let review_count := (normalized.filter (fun h => h.decision == "needs_human_review")).length
      .ok { summary := { total_homes := normalized.length
                         auto_approved_count := auto_count
                         needs_human_review_count := review_count }
            homes := normalized }

/-- Python `str.replace` on character lists, fuelled (the fuel is the
length of the subject, which suffices for a non-empty pattern since every
step consumes at least one character). -/
def replaceChars (pat rep : List Char) : ℕ → List Char → List Char
  | 0, s => s
  | _ + 1, [] => []
  | fuel + 1, c :: rest =>
    if pat.isPrefixOf (c :: rest) then
      rep ++ replaceChars pat rep fuel ((c :: rest).drop pat.length)
    else c :: replaceChars pat rep fuel rest

/-- Python `s.replace(pat, rep)` (for the non-empty patterns the code
uses). -/
def pyReplace (s pat rep : String) : String :=
  ⟨replaceChars pat.data rep.data s.data.length s.data⟩

/-- One entry of the `content` array of a Bedrock response body. -/
structure BedrockContentItem where
  itemType : String
  text : String

/-- The parsed Bedrock response body, reduced to the two fields
`_invoke_bedrock` reads: `stop_reason` (absent modelled as `none`, read
with default `"unknown"`) and the `content` array. -/
structure BedrockBody where
  stopReason : Option String
  content : List BedrockContentItem

/-- The expression `str(body.get("stop_reason", "unknown"))`. -/
def stopReasonOf (body : BedrockBody) : String := body.stopReason.getD "unknown"

/-- The expression `"\n".join(text of content items with type "text").strip()`. -/
def bodyText (body : BedrockBody) : String :=
  pyStrip (String.intercalate "\n"
    ((body.content.filter (fun i => i.itemType == "text")).map (fun i => i.text)))

/-- The expression `model_text.replace("```json", "").replace("```", "").strip()`. -/
def cleanedText (body : BedrockBody) : String :=
  pyStrip (pyReplace (pyReplace (bodyText body) "```json" "") "```" "")

/-- The diagnostics carried by the final `RuntimeError` of
`_invoke_bedrock` (the last stop reason and last cleaned text). -/
structure LadderFailure where
  stop_reason : String
  cleaned : String
deriving DecidableEq, Repr

/-- The ascending `max_tokens` budgets of `_invoke_bedrock`. -/
def ladderTiers : List ℕ := [2500, 5000, 8000]

/-- The `for max_tokens in [2500, 5000, 8000]` loop of `_invoke_bedrock`.
`respond n` is the body the Bedrock stub returns for the (n+1)-th call and
`parse` models `json.loads` on the cleaned text (`none` =
`JSONDecodeError`).  Returns the outcome together with the number of model
calls made. -/
def ladderRun (respond : ℕ → BedrockBody) (parse : String → Option PyVal) :
    List ℕ → ℕ → String → String → Except LadderFailure PyVal × ℕ
  | [], calls, lastStop, lastCleaned => (.error ⟨lastStop, lastCleaned⟩, calls)
  | _ :: rest, calls, _, lastCleaned =>
    let body := respond calls
    let stop := stopReasonOf body
    let text := bodyText body
    if text = "" then ladderRun respond parse rest (calls + 1) stop lastCleaned
    else
      let cleaned := cleanedText body
      match parse cleaned with
      | some v => (.ok v, calls + 1)
      | Option.none =>
        if stop ≠ "max_tokens" then (.error ⟨stop, cleaned⟩, calls + 1)
        else ladderRun respond parse rest (calls + 1) stop cleaned

/-- Embeds `_invoke_bedrock` from `index.py`, with the Bedrock service and
`json.loads` abstracted as stubs. -/
def invoke_bedrock (respond : ℕ → BedrockBody) (parse : String → Option PyVal) :
    Except LadderFailure PyVal × ℕ :=
  ladderRun respond parse ladderTiers 0 "unknown" ""

/-- Python `int(q)`: truncation toward zero. -/
def pyInt (q : ℚ) : ℤ := if q < 0 then -(⌊-q⌋) else ⌊q⌋

/-- Embeds `_bbox_to_pixel_box` from `index.py`: scale unit-square coordinates by
the image dimensions, truncate to integers, then clamp into a
non-degenerate in-bounds rectangle. -/
def bbox_to_pixel_box (bbox : BBox) (width height : ℤ) : ℤ × ℤ × ℤ × ℤ :=
  let left0 := pyInt (bbox.x_min * width)
  let top0 := pyInt (bbox.y_min * height)
  let right0 := pyInt (bbox.x_max * width)
  let bottom0 := pyInt (bbox.y_max * height)
  let left := max 0 (min (width - 1) left0)
  let top := max 0 (min (height - 1) top0)
  let right := max (left + 1) (min width right0)
  let bottom := max (top + 1) (min height bottom0)
  (left, top, right, bottom)

/-- Characters kept by `_sanitize_key_component`
(`re.sub(r"[^A-Za-z0-9._-]", "_", value)` keeps these, replaces the
rest). -/
def keyCharAllowed (c : Char) : Bool :=
  ('A' ≤ c ∧ c ≤ 'Z') ∨ ('a' ≤ c ∧ c ≤ 'z') ∨ ('0' ≤ c ∧ c ≤ '9') ∨
    c = '.' ∨ c = '_' ∨ c = '-'

/-- Embeds `_sanitize_key_component` from `index.py`. -/
def sanitize_key_component (value : String) : String :=
  let cleaned : List Char := value.data.map (fun c => if keyCharAllowed c then c else '_')
  let truncated := cleaned.take 120
  if truncated = [] then "home" else ⟨truncated⟩

/-- Embeds `_bbox_to_dynamodb_map` from `index.py` (string-encodes the four
coordinates; the exact numeral rendering is abstracted by `toString`). -/
def bbox_to_dynamodb_map (bbox : Option BBox) : Option (List (String × String)) :=
  match bbox with
  | Option.none => Option.none
  | some b =>
    some [("x_min", toString b.x_min), ("y_min", toString b.y_min),
          ("x_max", toString b.x_max), ("y_max", toString b.y_max)]

/-- Embeds `_save_visual_artifacts` from `index.py`, with Pillow abstracted: the
`pilAvailable` flag models the import guard and `decoded` models
`Image.open(...)` (`none` = decode failure, `some (w, h)` = the decoded
image size).  Returns the annotated-overview URI (if produced) and the
`house_id → crop URI` mapping; the actual pixel pushing and S3 puts are
side effects outside the claims. -/
def save_visual_artifacts (pilAvailable : Bool) (decoded : Option (ℤ × ℤ))
    (bucket image_key : String) (normalized : DecisionSet) :
    Option String × List (String × String) :=
  if pilAvailable = false then (Option.none, [])
  else
    match decoded with
    | Option.none => (Option.none, [])
    | some _ =>
      let crop_uris := normalized.homes.filterMap (fun home =>
        match home.bbox with
        | Option.none => Option.none
        | some _ =>
          some (home.house_id,
            "s3://" ++ bucket ++ "/routing-artifacts/crops/" ++ image_key ++ "/" ++
              sanitize_key_component home.house_id ++ ".png"))
      (some ("s3://" ++ bucket ++ "/routing-artifacts/annotated/" ++ image_key ++ ".annotated.png"),
       crop_uris)

/-- One DynamoDB item written by `_write_routing_results`. -/
structure RoutingRecord where
  routing_id : String
  source_image_uri : String
  house_id : String
  decision : String
  has_5ft_inclusion_zone : PyVal
  confidence : String
  reason : String
  bbox : Option (List (String × String))
  home_crop_s3_uri : Option String
  annotated_image_s3_uri : Option String
  created_at : String

/-- The lookup `crop_uris.get(house_id)` in the crop mapping. -/
def cropLookup (crop_uris : List (String × String)) (house_id : String) : Option String :=
  (crop_uris.find? (fun p => p.1 == house_id)).map (fun p => p.2)

/-- Embeds `_write_routing_results` from `index.py` as the batch of items it
writes (`timestamp` models `datetime.now(...).isoformat()`). -/
def write_routing_results (bucket image_key : String) (normalized : DecisionSet)
    (annotated_image_s3_uri : Option String) (crop_uris : List (String × String))
    (timestamp : String) : List RoutingRecord :=
  normalized.homes.map (fun home =>
    { routing_id := image_key ++ "#" ++ home.house_id
      source_image_uri := "s3://" ++ bucket ++ "/" ++ image_key
      house_id := home.house_id
      decision := home.decision
      has_5ft_inclusion_zone := home.has_5ft_inclusion_zone
      confidence := toString home.confidence
      reason := home.reason
      bbox := bbox_to_dynamodb_map home.bbox
      home_crop_s3_uri := cropLookup crop_uris home.house_id
      annotated_image_s3_uri := annotated_image_s3_uri
      created_at := timestamp })

/-- Python `key.startswith(p)`. -/
def strStartsWith (s p : String) : Bool := p.data.isPrefixOf s.data

/-- Embeds `_base_prompt` from `index.py`. -/
def base_prompt : String :=
  "You are an insurance property adjuster reviewing post-fire satellite imagery. " ++
  "For each visible home, determine whether there is a 5-foot inclusion zone around " ++
  "the home where no fire encroachment is present. Return STRICT JSON only using this schema: " ++
  "\x7b\"summary\": \x7b\"total_homes\": int, \"auto_approved_count\": int, \"needs_human_review_count\": int\x7d, " ++
  "\"homes\": [\x7b\"house_id\": string, \"decision\": \"auto_approved\"|\"needs_human_review\", " ++
  "\"has_5ft_inclusion_zone\": true|false|null, \"confidence\": number, \"reason\": string, " ++
  "\"bbox\": \x7b\"x_min\": number, \"y_min\": number, \"x_max\": number, \"y_max\": number\x7d\x7d]\x7d. " ++
  "Use bbox coordinates normalized from 0.0 to 1.0 and aligned to the referenced home. " ++
  "Use needs_human_review whenever confidence is low, occlusion exists, or 5-foot clearance cannot be confirmed. " ++
  "Keep each reason concise (<= 12 words). Return JSON only, no markdown, no commentary."

/-- Raw image bytes (opaque to the claims; only decodability matters). -/
abbrev Bytes := List ℕ

/-- The external collaborators of `lambda_handler`, as stubs:
`customPrompt` is the outcome of `_load_s3_text(bucket, PROMPT_S3_KEY)`,
`imageBytes` the outcome of `_load_s3_binary(bucket, key)`, `respond` and
`parse` the Bedrock/`json.loads` stubs of `_invoke_bedrock`,
`pilAvailable`/`decodeImage` the Pillow stubs of
`_save_visual_artifacts`. -/
structure Env where
  customPrompt : Except String String
  imageBytes : Except String Bytes
  respond : ℕ → BedrockBody
  parse : String → Option PyVal
  pilAvailable : Bool
  decodeImage : Bytes → Option (ℤ × ℤ)

/-- The dict `lambda_handler` returns: either the skip outcome or the
processed outcome (bucket, key, annotated URI, spread summary). -/
inductive RunResult where
  | skipped (bucket key reason : String)
  | done (bucket key : String) (annotated_image_s3_uri : Option String) (summary : Summary)

/-- Externally visible side effects of one run: number of Bedrock calls
made and the batch of routing records written. -/
structure RunTrace where
  modelCalls : ℕ
  written : List RoutingRecord

/-- Embeds `lambda_handler` from `index.py`, after event extraction (`bucket` and
`key` are the extracted trigger reference; `timestamp` models the wall
clock read in `_write_routing_results`).  Uncaught Python exceptions are
modelled as `Except.error`. -/
def lambda_handler (env : Env) (bucket key timestamp : String) :
    Except String RunResult × RunTrace :=
  if strStartsWith key "compared/" = false then
    (.ok (.skipped bucket key "unsupported-prefix"), ⟨0, []⟩)
  else
    let _prompt_text :=
      match env.customPrompt with
      | .ok custom =>
        if pyStrip custom ≠ "" then
          base_prompt ++ "\n\nAdditional instructions:\n" ++ pyStrip custom
        else base_prompt
      | .error _ => base_prompt
    match env.imageBytes with
    | .error e => (.error e, ⟨0, []⟩)
    | .ok bytes =>
      match invoke_bedrock env.respond env.parse with
      | (.error _, n) => (.error "Bedrock response is not valid JSON", ⟨n, []⟩)
      | (.ok raw, n) =>
        match normalize_decisions raw with
        | .error e => (.error e, ⟨n, []⟩)
        | .ok normalized =>
          let artifacts := save_visual_artifacts env.pilAvailable (env.decodeImage bytes) bucket key normalized
          let records := write_routing_results bucket key normalized artifacts.1 artifacts.2 timestamp
          (.ok (.done bucket key artifacts.1 normalized.summary), ⟨n, records⟩)

/-! ### Helper lemmas -/

theorem floor_le_pyRoundInt (q : ℚ) : ⌊q⌋ ≤ pyRoundInt q := by
  unfold pyRoundInt
  split_ifs <;> omega

theorem pyRoundInt_le_ceil (q : ℚ) : pyRoundInt q ≤ ⌈q⌉ := by
  have hfc : ⌊q⌋ ≤ ⌈q⌉ := Int.floor_le_ceil q
  have hlt : 1 / 2 ≤ q - (⌊q⌋ : ℚ) → ⌊q⌋ + 1 ≤ ⌈q⌉ := by
    intro h
    have : (⌊q⌋ : ℚ) < q := by linarith
    have := Int.lt_ceil.mpr this
    omega
  unfold pyRoundInt
  split_ifs with h1 h2 h3
  · exact hfc
  · exact hlt (le_of_lt h2)
  · exact hfc
  · exact hlt (by linarith [not_lt.mp h1])

theorem pyRound6_nonneg {q : ℚ} (h : 0 ≤ q) : 0 ≤ pyRound6 q := by
  unfold pyRound6
  have h0 : (0 : ℤ) ≤ ⌊q * 1000000⌋ := Int.floor_nonneg.mpr (by positivity)
  have h1 : (0 : ℤ) ≤ pyRoundInt (q * 1000000) := le_trans h0 (floor_le_pyRoundInt _)
  positivity

theorem pyRound6_le_one {q : ℚ} (h : q ≤ 1) : pyRound6 q ≤ 1 := by
  unfold pyRound6
  have hc : ⌈q * 1000000⌉ ≤ 1000000 := Int.ceil_le.mpr (by push_cast; linarith)
  have h1 : pyRoundInt (q * 1000000) ≤ 1000000 := le_trans (pyRoundInt_le_ceil _) hc
  rw [div_le_one (by norm_num)]
  exact_mod_cast h1

theorem clamp01_nonneg (q : ℚ) : 0 ≤ clamp01 q := le_max_left 0 _

theorem clamp01_le_one (q : ℚ) : clamp01 q ≤ 1 :=
  max_le (by norm_num) (min_le_left 1 q)

theorem pyInt_nonneg {q : ℚ} (h : 0 ≤ q) : 0 ≤ pyInt q := by
  unfold pyInt
  rw [if_neg (not_lt.mpr h)]
  exact Int.floor_nonneg.mpr h

/-! ### Claims -/

/-- C3.  `_normalize_bbox` returns `None` exactly when the input is not a
dict, some coordinate of `x_min, y_min, x_max, y_max` fails to parse as a
number, or the box is degenerate (`x_max <= x_min` or `y_max <= y_min`)
after clamping each coordinate to [0,1]; otherwise it returns a box whose
four coordinates all lie within [0,1]. -/
theorem bbox_normalization_spec (raw : PyVal) :
    ((∀ d, raw ≠ PyVal.dict d) → normalize_bbox raw = Option.none) ∧
    (∀ d, raw = PyVal.dict d →
      ((pyFloat (dgetD d "x_min" .none) = Option.none ∨
        pyFloat (dgetD d "y_min" .none) = Option.none ∨
        pyFloat (dgetD d "x_max" .none) = Option.none ∨
        pyFloat (dgetD d "y_max" .none) = Option.none) →
        normalize_bbox raw = Option.none) ∧
      (∀ px0 py0 px1 py1,
        pyFloat (dgetD d "x_min" .none) = some px0 →
        pyFloat (dgetD d "y_min" .none) = some py0 →
        pyFloat (dgetD d "x_max" .none) = some px1 →
        pyFloat (dgetD d "y_max" .none) = some py1 →
        ((clamp01 px1 ≤ clamp01 px0 ∨ clamp01 py1 ≤ clamp01 py0) →
          normalize_bbox raw = Option.none) ∧
        (clamp01 px0 < clamp01 px1 → clamp01 py0 < clamp01 py1 →
          ∃ b, normalize_bbox raw = some b ∧
            0 ≤ b.x_min ∧ b.x_min ≤ 1 ∧ 0 ≤ b.y_min ∧ b.y_min ≤ 1 ∧
            0 ≤ b.x_max ∧ b.x_max ≤ 1 ∧ 0 ≤ b.y_max ∧ b.y_max ≤ 1))) := by
  constructor
  · intro hnd
    cases raw with
    | dict d => exact absurd rfl (hnd d)
    | none => rfl
    | bool b => rfl
    | num q => rfl
    | str s => rfl
    | list l => rfl
  · intro d hd
    subst hd
    constructor
    · intro hfail
      simp only [normalize_bbox]
      rcases hfail with h | h | h | h <;> rw [h] <;>
        cases pyFloat (dgetD d "x_min" .none) <;>
        cases pyFloat (dgetD d "y_min" .none) <;>
        cases pyFloat (dgetD d "x_max" .none) <;>
        cases pyFloat (dgetD d "y_max" .none) <;> rfl
    · intro px0 py0 px1 py1 h0 h1 h2 h3
      constructor
      · intro hdeg
        simp only [normalize_bbox, h0, h1, h2, h3]
        rw [if_pos hdeg]
      · intro hx hy
        refine ⟨⟨pyRound6 (clamp01 px0), pyRound6 (clamp01 py0),
                 pyRound6 (clamp01 px1), pyRound6 (clamp01 py1)⟩, ?_, ?_, ?_, ?_, ?_, ?_, ?_, ?_, ?_⟩
        · simp only [normalize_bbox, h0, h1, h2, h3]
          rw [if_neg (by push_neg; exact ⟨hx, hy⟩)]
        · exact pyRound6_nonneg (clamp01_nonneg px0)
        · exact pyRound6_le_one (clamp01_le_one px0)
        · exact pyRound6_nonneg (clamp01_nonneg py0)
        · exact pyRound6_le_one (clamp01_le_one py0)
        · exact pyRound6_nonneg (clamp01_nonneg px1)
        · exact pyRound6_le_one (clamp01_le_one px1)
        · exact pyRound6_nonneg (clamp01_nonneg py1)
        · exact pyRound6_le_one (clamp01_le_one py1)

/-- Witness for C3: the concrete bbox `{x_min: 0.1, y_min: 0.2, x_max: 0.5,
y_max: 0.6}` normalizes to a box whose coordinates lie within [0,1]. -/
theorem bbox_normalization_spec_witness :
    ∃ b, normalize_bbox (.dict [("x_min", .num (1/10)), ("y_min", .num (2/10)),
        ("x_max", .num (5/10)), ("y_max", .num (6/10))]) = some b ∧
      0 ≤ b.x_min ∧ b.x_min ≤ 1 ∧ 0 ≤ b.y_min ∧ b.y_min ≤ 1 ∧
      0 ≤ b.x_max ∧ b.x_max ≤ 1 ∧ 0 ≤ b.y_max ∧ b.y_max ≤ 1 :=
  (((bbox_normalization_spec _).2 _ rfl).2 (1/10) (2/10) (5/10) (6/10)
      (by with_unfolding_all decide) (by with_unfolding_all decide)
      (by with_unfolding_all decide) (by with_unfolding_all decide)).2
    (by with_unfolding_all decide) (by with_unfolding_all decide)

/-- C4.  For image dimensions `w, h >= 1` and a valid normalized bbox
(coordinates in [0,1], positive width and height), the pixel rectangle
derived by `_bbox_to_pixel_box` satisfies `0 <= left < right <= w` and
`0 <= top < bottom <= h`. -/
theorem pixel_box_in_bounds (b : BBox) (w h : ℤ)
    (hw : 1 ≤ w) (hh : 1 ≤ h)
    (hx0 : 0 ≤ b.x_min) (hx0u : b.x_min ≤ 1)
    (hy0 : 0 ≤ b.y_min) (hy0u : b.y_min ≤ 1)
    (hx1 : 0 ≤ b.x_max) (hx1u : b.x_max ≤ 1)
    (hy1 : 0 ≤ b.y_max) (hy1u : b.y_max ≤ 1)
    (hxlt : b.x_min < b.x_max) (hylt : b.y_min < b.y_max) :
    0 ≤ (bbox_to_pixel_box b w h).1 ∧
    (bbox_to_pixel_box b w h).1 < (bbox_to_pixel_box b w h).2.2.1 ∧
    (bbox_to_pixel_box b w h).2.2.1 ≤ w ∧
    0 ≤ (bbox_to_pixel_box b w h).2.1 ∧
    (bbox_to_pixel_box b w h).2.1 < (bbox_to_pixel_box b w h).2.2.2 ∧
    (bbox_to_pixel_box b w h).2.2.2 ≤ h := by
  have hwq : (0 : ℚ) ≤ (w : ℚ) := by exact_mod_cast le_trans (by norm_num) hw
  have hhq : (0 : ℚ) ≤ (h : ℚ) := by exact_mod_cast le_trans (by norm_num) hh
  have h1 : 0 ≤ pyInt (b.x_min * w) := pyInt_nonneg (mul_nonneg hx0 hwq)
  have h2 : 0 ≤ pyInt (b.y_min * h) := pyInt_nonneg (mul_nonneg hy0 hhq)
  simp only [bbox_to_pixel_box]
  omega

/-- Witness for C4: the bbox `{0.1, 0.1, 0.5, 0.5}` on a 100×80 image gives
a non-degenerate, in-bounds pixel rectangle. -/
theorem pixel_box_in_bounds_witness :
    0 ≤ (bbox_to_pixel_box ⟨1/10, 1/10, 1/2, 1/2⟩ 100 80).1 ∧
    (bbox_to_pixel_box ⟨1/10, 1/10, 1/2, 1/2⟩ 100 80).1 <
      (bbox_to_pixel_box ⟨1/10, 1/10, 1/2, 1/2⟩ 100 80).2.2.1 ∧
    (bbox_to_pixel_box ⟨1/10, 1/10, 1/2, 1/2⟩ 100 80).2.2.1 ≤ 100 ∧
    0 ≤ (bbox_to_pixel_box ⟨1/10, 1/10, 1/2, 1/2⟩ 100 80).2.1 ∧
    (bbox_to_pixel_box ⟨1/10, 1/10, 1/2, 1/2⟩ 100 80).2.1 <
      (bbox_to_pixel_box ⟨1/10, 1/10, 1/2, 1/2⟩ 100 80).2.2.2 ∧
    (bbox_to_pixel_box ⟨1/10, 1/10, 1/2, 1/2⟩ 100 80).2.2.2 ≤ 80 :=
  pixel_box_in_bounds ⟨1/10, 1/10, 1/2, 1/2⟩ 100 80 (by norm_num) (by norm_num)
    (by norm_num) (by norm_num) (by norm_num) (by norm_num) (by norm_num)
    (by norm_num) (by norm_num) (by norm_num) (by norm_num) (by norm_num)

theorem normalizeDecisionLabel_mem (v : PyVal) :
    normalizeDecisionLabel v = "auto_approved" ∨
      normalizeDecisionLabel v = "needs_human_review" := by
  simp only [normalizeDecisionLabel]
  split_ifs with h
  · exact h
  · right; rfl

/-- C10.  Decision-label matching is whitespace- and case-insensitive: the
normalizer strips and lowercases the raw value before the membership test
(so the normalized label is `auto_approved` exactly when the stripped,
lowercased form is `auto_approved`), and the raw labels `"AUTO_APPROVED"`
and `" Auto_Approved "` normalize to `auto_approved`. -/
theorem decision_label_case_insensitive :
    (∀ v : PyVal, normalizeDecisionLabel v = "auto_approved" ↔
      pyLower (pyStrip (pyStr v)) = "auto_approved") ∧
    normalizeDecisionLabel (.str "AUTO_APPROVED") = "auto_approved" ∧
    normalizeDecisionLabel (.str " Auto_Approved ") = "auto_approved" := by
  refine ⟨fun v => ?_, by decide, by decide⟩
  simp only [normalizeDecisionLabel]
  split_ifs with h
  · exact Iff.rfl
  · exact iff_of_false (by decide) (fun hc => h (Or.inl hc))

/-- Counterexample to C5 as stated: the raw decision value
`"AUTO_APPROVED"` is outside the set `{auto_approved, needs_human_review}`
(it equals neither label), yet it does not coerce to
`needs_human_review` — it normalizes to `auto_approved`. -/
theorem decision_fail_closed_counterexample :
    ("AUTO_APPROVED" : String) ≠ "auto_approved" ∧
    ("AUTO_APPROVED" : String) ≠ "needs_human_review" ∧
    normalizeDecisionLabel (.str "AUTO_APPROVED") ≠ "needs_human_review" := by
  refine ⟨by decide, by decide, by decide⟩

/-- C5 as amended.  The normalized decision is always one of
`{auto_approved, needs_human_review}`; any raw decision value whose
string form, stripped and lowercased, is outside this set coerces to
`needs_human_review`; a missing decision coerces to
`needs_human_review`; in particular the raw label `"approved"` normalizes
to `needs_human_review`. -/
theorem decision_fail_closed (v : PyVal) (home : List (String × PyVal))
    (h1 : pyLower (pyStrip (pyStr v)) ≠ "auto_approved")
    (h2 : pyLower (pyStrip (pyStr v)) ≠ "needs_human_review")
    (hmiss : dlookup home "decision" = Option.none) :
    (∀ w : PyVal, normalizeDecisionLabel w = "auto_approved" ∨
      normalizeDecisionLabel w = "needs_human_review") ∧
    normalizeDecisionLabel v = "needs_human_review" ∧
    (∀ idx, (normalizeHome idx home).decision = "needs_human_review") ∧
    normalizeDecisionLabel (.str "approved") = "needs_human_review" := by
  refine ⟨normalizeDecisionLabel_mem, ?_, ?_, by decide⟩
  · simp only [normalizeDecisionLabel]
    rw [if_neg]
    intro h
    rcases h with h | h
    · exact h1 h
    · exact h2 h
  · intro idx
    simp only [normalizeHome, dgetD, hmiss, Option.getD]
    decide

/-- Witness for C5 (amended): the raw label `"approved"` is outside the
accepted set after stripping and lowercasing, and a home with no
`decision` key coerces to `needs_human_review`. -/
theorem decision_fail_closed_witness :
    normalizeDecisionLabel (.str "approved") = "needs_human_review" ∧
    (normalizeHome 1 [("confidence", .num (9/10))]).decision = "needs_human_review" :=
  ⟨(decision_fail_closed (.str "approved") [("confidence", .num (9/10))]
      (by decide) (by decide) rfl).2.1,
   (decision_fail_closed (.str "approved") [("confidence", .num (9/10))]
      (by decide) (by decide) rfl).2.2.1 1⟩

/-- Counterexample to C9 as stated: the raw inclusion-zone value
`"yes"` is outside the tri-state `{true, false, unknown}`, yet it is not
coerced to unknown (`None`) — it is passed through unmodified. -/
theorem inclusion_passthrough_counterexample :
    (normalizeHome 1 [("has_5ft_inclusion_zone", PyVal.str "yes")]).has_5ft_inclusion_zone
      = PyVal.str "yes" ∧
    PyVal.str "yes" ≠ PyVal.none ∧
    PyVal.str "yes" ≠ PyVal.bool true ∧
    PyVal.str "yes" ≠ PyVal.bool false :=
  ⟨rfl, fun h => PyVal.noConfusion h, fun h => PyVal.noConfusion h,
    fun h => PyVal.noConfusion h⟩

/-- C9 as amended.  The normalized inclusion-zone field equals the raw
value unmodified whenever the key is present — whatever that value is,
including values outside the tri-state — and becomes unknown (`None`)
only when the key is absent. -/
theorem inclusion_passthrough (idx : ℕ) (home : List (String × PyVal)) :
    (∀ v, dlookup home "has_5ft_inclusion_zone" = some v →
      (normalizeHome idx home).has_5ft_inclusion_zone = v) ∧
    (dlookup home "has_5ft_inclusion_zone" = Option.none →
      (normalizeHome idx home).has_5ft_inclusion_zone = PyVal.none) := by
  constructor
  · intro v hv
    simp only [normalizeHome, dgetD, hv, Option.getD]
  · intro hv
    simp only [normalizeHome, dgetD, hv, Option.getD]

/-- Witness for C9 (amended): a present `true` passes through and an
absent key becomes `None`. -/
theorem inclusion_passthrough_witness :
    (normalizeHome 2 [("has_5ft_inclusion_zone", PyVal.bool true)]).has_5ft_inclusion_zone
      = PyVal.bool true ∧
    (normalizeHome 3 [("decision", PyVal.str "auto_approved")]).has_5ft_inclusion_zone
      = PyVal.none :=
  ⟨(inclusion_passthrough 2 [("has_5ft_inclusion_zone", PyVal.bool true)]).1
      (PyVal.bool true) rfl,
   (inclusion_passthrough 3 [("decision", PyVal.str "auto_approved")]).2 rfl⟩

theorem normalizeHomes_ok (idx : ℕ) (items : List PyVal)
    (hd : ∀ it ∈ items, ∃ d, it = PyVal.dict d) :
    ∃ l, normalizeHomes idx items = .ok l ∧
      ∀ h ∈ l, h.decision = "auto_approved" ∨ h.decision = "needs_human_review" := by
  induction items generalizing idx with
  | nil => exact ⟨[], rfl, by simp⟩
  | cons it rest ih =>
    obtain ⟨d, hd0⟩ := hd it (List.mem_cons_self it rest)
    subst hd0
    obtain ⟨tl, htl, hmem⟩ := ih (idx + 1) (fun x hx => hd x (List.mem_cons_of_mem _ hx))
    refine ⟨normalizeHome idx d :: tl, ?_, ?_⟩
    · simp only [normalizeHomes, htl]
    · intro h hh
      rcases List.mem_cons.mp hh with h1 | h1
      · subst h1
        exact normalizeDecisionLabel_mem _
      · exact hmem h h1

theorem partition_count (l : List NormalizedDecision)
    (hd : ∀ h ∈ l, h.decision = "auto_approved" ∨ h.decision = "needs_human_review") :
    l.length = (l.filter (fun h => h.decision == "auto_approved")).length +
      (l.filter (fun h => h.decision == "needs_human_review")).length := by
  induction l with
  | nil => rfl
  | cons x xs ih =>
    have hx := hd x (List.mem_cons_self x xs)
    have hxs := ih (fun y hy => hd y (List.mem_cons_of_mem _ hy))
    rcases hx with h | h
    · rw [List.filter_cons, List.filter_cons,
        if_pos (by rw [h]; decide), if_neg (by rw [h]; decide)]
      simp only [List.length_cons]
      omega
    · rw [List.filter_cons, List.filter_cons,
        if_neg (by rw [h]; decide), if_pos (by rw [h]; decide)]
      simp only [List.length_cons]
      omega

/-- Counterexample to C1 as stated: an input whose `homes` list contains a
non-dict element makes `_normalize_decisions` raise (`.get` on a
non-dict raises `AttributeError`) instead of returning a `DecisionSet`. -/
theorem normalizer_total_counterexample :
    normalize_decisions (.dict [("homes", .list [PyVal.num 0])])
      = .error "AttributeError: object has no attribute get" := rfl

/-- C1 as amended.  For every input whose `homes` field (an empty list when
the input is not a dict or has no `homes` key) iterates to dict elements
only, `_normalize_decisions` returns a `DecisionSet` without raising, and
the summary counts equal the sizes of the corresponding partitions of the
returned `homes` list (`total = auto_approved + needs_human_review`). -/
theorem normalizer_total (raw : PyVal) (items : List PyVal)
    (hiter : pyIter (homesField raw) = .ok items)
    (hdicts : ∀ it ∈ items, ∃ d, it = PyVal.dict d) :
    ∃ ds, normalize_decisions raw = .ok ds ∧
      ds.summary.total_homes = ds.homes.length ∧
      ds.summary.auto_approved_count =
        (ds.homes.filter (fun h => h.decision == "auto_approved")).length ∧
      ds.summary.needs_human_review_count =
        (ds.homes.filter (fun h => h.decision == "needs_human_review")).length ∧
      ds.summary.total_homes =
        ds.summary.auto_approved_count + ds.summary.needs_human_review_count := by
  obtain ⟨l, hl, hmem⟩ := normalizeHomes_ok 1 items hdicts
  refine ⟨⟨⟨l.length,
            (l.filter (fun h => h.decision == "auto_approved")).length,
            (l.filter (fun h => h.decision == "needs_human_review")).length⟩, l⟩,
          ?_, rfl, rfl, rfl, partition_count l hmem⟩
  simp only [normalize_decisions, hiter, hl]

/-- Witness for C1 (amended): a one-home input normalizes to a
`DecisionSet` with consistent counts. -/
theorem normalizer_total_witness :
    ∃ ds, normalize_decisions
        (.dict [("homes", .list [PyVal.dict [("decision", .str "auto_approved")]])])
        = .ok ds ∧
      ds.summary.total_homes = ds.homes.length ∧
      ds.summary.auto_approved_count =
        (ds.homes.filter (fun h => h.decision == "auto_approved")).length ∧
      ds.summary.needs_human_review_count =
        (ds.homes.filter (fun h => h.decision == "needs_human_review")).length ∧
      ds.summary.total_homes =
        ds.summary.auto_approved_count + ds.summary.needs_human_review_count :=
  normalizer_total _ [PyVal.dict [("decision", .str "auto_approved")]] rfl
    (by
      intro it hit
      rw [List.mem_singleton] at hit
      exact ⟨_, hit⟩)

/-- C6.  `_write_routing_results` writes exactly one record per object
(zero for an empty set), each record's identity is
`routing_id = <triggering key>#<object id>`, and persisting the same
`DecisionSet` for the same triggering key twice — any bucket, artifact
bundle and timestamp — yields the same list of record identities, so
re-running overwrites rather than duplicates. -/
theorem routing_persistence_idempotent (bucket bucket' key timestamp timestamp' : String)
    (ds : DecisionSet) (ann ann' : Option String)
    (crops crops' : List (String × String)) :
    (write_routing_results bucket key ds ann crops timestamp).length = ds.homes.length ∧
    ((write_routing_results bucket key ds ann crops timestamp).map (fun r => r.routing_id) =
      ds.homes.map (fun h => key ++ "#" ++ h.house_id)) ∧
    ((write_routing_results bucket key ds ann crops timestamp).map (fun r => r.routing_id) =
      (write_routing_results bucket' key ds ann' crops' timestamp').map
        (fun r => r.routing_id)) := by
  refine ⟨List.length_map _ _, ?_, ?_⟩ <;>
    simp only [write_routing_results, List.map_map] <;> rfl

/-- C7.  A triggering key outside the accepted `compared/` namespace makes
the run return `{skipped: true, reason: "unsupported-prefix"}` with no
model call and no record written. -/
theorem skip_outside_namespace (env : Env) (bucket key timestamp : String)
    (h : strStartsWith key "compared/" = false) :
    lambda_handler env bucket key timestamp =
      (.ok (.skipped bucket key "unsupported-prefix"), ⟨0, []⟩) := by
  simp only [lambda_handler, h, if_pos]

/-- Witness for C7: the key `"uploads/foo.png"` is skipped with reason
`"unsupported-prefix"`, with zero model calls and zero records. -/
theorem skip_outside_namespace_witness :
    lambda_handler
      ⟨.error "absent", .error "absent", fun _ => ⟨Option.none, []⟩,
        fun _ => Option.none, false, fun _ => Option.none⟩
      "bucket" "uploads/foo.png" "t0" =
      (.ok (.skipped "bucket" "uploads/foo.png" "unsupported-prefix"), ⟨0, []⟩) :=
  skip_outside_namespace _ "bucket" "uploads/foo.png" "t0" (by decide)

theorem ladderRun_count_le (respond : ℕ → BedrockBody) (parse : String → Option PyVal)
    (tiers : List ℕ) : ∀ (calls : ℕ) (ls lc : String),
    (ladderRun respond parse tiers calls ls lc).2 ≤ calls + tiers.length := by
  induction tiers with
  | nil => intro calls ls lc; simp [ladderRun]
  | cons t rest ih =>
    intro calls ls lc
    simp only [ladderRun, List.length_cons]
    by_cases hbt : bodyText (respond calls) = ""
    · rw [if_pos hbt]
      exact le_trans (ih (calls + 1) _ _) (by omega)
    · rw [if_neg hbt]
      cases hp : parse (cleanedText (respond calls)) with
      | some v =>
        simp only [hp]
        show calls + 1 ≤ calls + (rest.length + 1)
        omega
      | none =>
        simp only [hp]
        by_cases hstop : stopReasonOf (respond calls) ≠ "max_tokens"
        · rw [if_pos hstop]
          show calls + 1 ≤ calls + (rest.length + 1)
          omega
        · rw [if_neg hstop]
          exact le_trans (ih (calls + 1) _ _) (by omega)

theorem ladderRun_step_pass (respond : ℕ → BedrockBody) (parse : String → Option PyVal)
    (t : ℕ) (rest : List ℕ) (calls : ℕ) (ls lc : String)
    (hp : bodyText (respond calls) = "" ∨
      (stopReasonOf (respond calls) = "max_tokens" ∧
        parse (cleanedText (respond calls)) = Option.none)) :
    ∃ lc', ladderRun respond parse (t :: rest) calls ls lc =
      ladderRun respond parse rest (calls + 1) (stopReasonOf (respond calls)) lc' := by
  by_cases hbt : bodyText (respond calls) = ""
  · exact ⟨lc, by simp only [ladderRun]; rw [if_pos hbt]⟩
  · rcases hp with hbt' | ⟨hstop, hparse⟩
    · exact absurd hbt' hbt
    · refine ⟨cleanedText (respond calls), ?_⟩
      simp only [ladderRun]
      rw [if_neg hbt]
      simp only [hparse]
      rw [if_neg (by simp [hstop])]

theorem ladderRun_step_success (respond : ℕ → BedrockBody) (parse : String → Option PyVal)
    (t : ℕ) (rest : List ℕ) (calls : ℕ) (ls lc : String) (v : PyVal)
    (hbt : bodyText (respond calls) ≠ "")
    (hp : parse (cleanedText (respond calls)) = some v) :
    ladderRun respond parse (t :: rest) calls ls lc = (.ok v, calls + 1) := by
  simp only [ladderRun]
  rw [if_neg hbt]
  simp only [hp]

theorem ladderRun_step_abort (respond : ℕ → BedrockBody) (parse : String → Option PyVal)
    (t : ℕ) (rest : List ℕ) (calls : ℕ) (ls lc : String)
    (hbt : bodyText (respond calls) ≠ "")
    (hp : parse (cleanedText (respond calls)) = Option.none)
    (hstop : stopReasonOf (respond calls) ≠ "max_tokens") :
    ladderRun respond parse (t :: rest) calls ls lc =
      (.error ⟨stopReasonOf (respond calls), cleanedText (respond calls)⟩, calls + 1) := by
  simp only [ladderRun]
  rw [if_neg hbt]
  simp only [hp]
  rw [if_pos hstop]

/-- C2.  The invocation ladder makes at most 3 model calls; a stub that
always reports `max_tokens` (truncated) with non-empty unparsable text
makes it fail after exactly 3 calls; a stub whose first call reports a
non-truncation stop reason with non-empty unparsable text makes it fail
after exactly 1 call; and the first call made whose text parses returns
immediately, with no further calls. -/
theorem ladder_call_budget :
    (∀ (respond : ℕ → BedrockBody) (parse : String → Option PyVal),
      (invoke_bedrock respond parse).2 ≤ 3) ∧
    (∀ (respond : ℕ → BedrockBody) (parse : String → Option PyVal),
      (∀ n, n < 3 → stopReasonOf (respond n) = "max_tokens" ∧
        bodyText (respond n) ≠ "" ∧ parse (cleanedText (respond n)) = Option.none) →
      ∃ e, invoke_bedrock respond parse = (.error e, 3)) ∧
    (∀ (respond : ℕ → BedrockBody) (parse : String → Option PyVal),
      stopReasonOf (respond 0) ≠ "max_tokens" →
      bodyText (respond 0) ≠ "" →
      parse (cleanedText (respond 0)) = Option.none →
      ∃ e, invoke_bedrock respond parse = (.error e, 1)) ∧
    (∀ (respond : ℕ → BedrockBody) (parse : String → Option PyVal) (n : ℕ) (v : PyVal),
      n < 3 →
      (∀ m, m < n → bodyText (respond m) = "" ∨
        (stopReasonOf (respond m) = "max_tokens" ∧
          parse (cleanedText (respond m)) = Option.none)) →
      bodyText (respond n) ≠ "" →
      parse (cleanedText (respond n)) = some v →
      invoke_bedrock respond parse = (.ok v, n + 1)) := by
  refine ⟨?_, ?_, ?_, ?_⟩
  · intro respond parse
    exact le_trans (ladderRun_count_le respond parse ladderTiers 0 "unknown" "") (by simp [ladderTiers])
  · intro respond parse hall
    obtain ⟨lc1, e1⟩ := ladderRun_step_pass respond parse 2500 [5000, 8000] 0 "unknown" ""
      (Or.inr ⟨(hall 0 (by omega)).1, (hall 0 (by omega)).2.2⟩)
    obtain ⟨lc2, e2⟩ := ladderRun_step_pass respond parse 5000 [8000] 1 _ lc1
      (Or.inr ⟨(hall 1 (by omega)).1, (hall 1 (by omega)).2.2⟩)
    obtain ⟨lc3, e3⟩ := ladderRun_step_pass respond parse 8000 [] 2 _ lc2
      (Or.inr ⟨(hall 2 (by omega)).1, (hall 2 (by omega)).2.2⟩)
    refine ⟨⟨stopReasonOf (respond 2), lc3⟩, ?_⟩
    show ladderRun respond parse (2500 :: [5000, 8000]) 0 "unknown" "" = _
    rw [e1, e2, e3]
    rfl
  · intro respond parse h1 h2 h3
    exact ⟨⟨stopReasonOf (respond 0), cleanedText (respond 0)⟩,
      ladderRun_step_abort respond parse 2500 [5000, 8000] 0 "unknown" "" h2 h3 h1⟩
  · intro respond parse n v hn hprev hbt hparse
    rcases n with _ | _ | _ | n
    · exact ladderRun_step_success respond parse 2500 [5000, 8000] 0 "unknown" "" v hbt hparse
    · obtain ⟨lc1, e1⟩ := ladderRun_step_pass respond parse 2500 [5000, 8000] 0 "unknown" ""
        (hprev 0 (by omega))
      show ladderRun respond parse (2500 :: [5000, 8000]) 0 "unknown" "" = _
      rw [e1]
      exact ladderRun_step_success respond parse 5000 [8000] 1 _ lc1 v hbt hparse
    · obtain ⟨lc1, e1⟩ := ladderRun_step_pass respond parse 2500 [5000, 8000] 0 "unknown" ""
        (hprev 0 (by omega))
      obtain ⟨lc2, e2⟩ := ladderRun_step_pass respond parse 5000 [8000] 1 _ lc1
        (hprev 1 (by omega))
      show ladderRun respond parse (2500 :: [5000, 8000]) 0 "unknown" "" = _
      rw [e1, e2]
      exact ladderRun_step_success respond parse 8000 [] 2 _ lc2 v hbt hparse
    · exact absurd hn (by omega)

/-- Witness for C2: an always-truncated unparsable stub fails after exactly
3 calls, a finished-normally unparsable stub fails after exactly 1 call,
and a stub whose first response parses returns after exactly 1 call. -/
theorem ladder_call_budget_witness :
    (∃ e, invoke_bedrock (fun _ => ⟨some "max_tokens", [⟨"text", "not json"⟩]⟩)
        (fun _ => Option.none) = (.error e, 3)) ∧
    (∃ e, invoke_bedrock (fun _ => ⟨some "end_turn", [⟨"text", "not json"⟩]⟩)
        (fun _ => Option.none) = (.error e, 1)) ∧
    invoke_bedrock (fun _ => ⟨some "end_turn", [⟨"text", "payload"⟩]⟩)
        (fun _ => some (.dict [])) = (.ok (.dict []), 1) :=
  ⟨ladder_call_budget.2.1 _ _ (fun n _ => ⟨rfl, by decide, rfl⟩),
   ladder_call_budget.2.2.1 _ _ (by decide) (by decide) rfl,
   ladder_call_budget.2.2.2 _ _ 0 (.dict []) (by omega)
     (fun m hm => absurd hm (by omega)) (by decide) rfl⟩

/-- C8.  When raster decoding is unavailable (no Pillow) or the image bytes
do not decode, `_save_visual_artifacts` returns an empty bundle (no
annotated-overview URI, empty crop mapping) without raising, and the run
still persists exactly one routing record per object of the decision
set. -/
theorem artifacts_degrade_softly (env : Env) (bucket key timestamp : String)
    (bytes : Bytes) (raw : PyVal) (n : ℕ) (normalized : DecisionSet)
    (hkey : strStartsWith key "compared/" = true)
    (hbytes : env.imageBytes = .ok bytes)
    (hladder : invoke_bedrock env.respond env.parse = (.ok raw, n))
    (hnorm : normalize_decisions raw = .ok normalized)
    (hdeg : env.pilAvailable = false ∨ env.decodeImage bytes = Option.none) :
    save_visual_artifacts env.pilAvailable (env.decodeImage bytes) bucket key normalized
      = (Option.none, []) ∧
    lambda_handler env bucket key timestamp =
      (.ok (.done bucket key Option.none normalized.summary),
        ⟨n, write_routing_results bucket key normalized Option.none [] timestamp⟩) ∧
    (lambda_handler env bucket key timestamp).2.written.length = normalized.homes.length := by
  have hart : save_visual_artifacts env.pilAvailable (env.decodeImage bytes)
      bucket key normalized = (Option.none, []) := by
    rcases hdeg with h | h
    · simp [save_visual_artifacts, h]
    · cases hpil : env.pilAvailable
      · simp [save_visual_artifacts]
      · simp [save_visual_artifacts, hpil, h]
  have hrun : lambda_handler env bucket key timestamp =
      (.ok (.done bucket key Option.none normalized.summary),
        ⟨n, write_routing_results bucket key normalized Option.none [] timestamp⟩) := by
    simp only [lambda_handler, hkey, hbytes, hladder, hnorm, hart]
    rfl
  refine ⟨hart, hrun, ?_⟩
  rw [hrun]
  simp [write_routing_results]

/-- Witness for C8: with Pillow unavailable, a run over a one-home model
response produces an empty artifact bundle and still writes one routing
record. -/
theorem artifacts_degrade_softly_witness :
    save_visual_artifacts false Option.none "b" "compared/x.png"
        ⟨⟨1, 0, 1⟩, [⟨"house-001", "needs_human_review", PyVal.none, 0,
          "No reason provided by model", Option.none⟩]⟩ = (Option.none, []) ∧
    lambda_handler
        ⟨.error "no custom prompt", .ok [],
          fun _ => ⟨some "end_turn", [⟨"text", "payload"⟩]⟩,
          fun _ => some (.dict [("homes", .list [PyVal.dict []])]),
          false, fun _ => Option.none⟩
        "b" "compared/x.png" "t1" =
      (.ok (.done "b" "compared/x.png" Option.none ⟨1, 0, 1⟩),
        ⟨1, write_routing_results "b" "compared/x.png"
          ⟨⟨1, 0, 1⟩, [⟨"house-001", "needs_human_review", PyVal.none, 0,
            "No reason provided by model", Option.none⟩]⟩ Option.none [] "t1"⟩) ∧
    (lambda_handler
        ⟨.error "no custom prompt", .ok [],
          fun _ => ⟨some "end_turn", [⟨"text", "payload"⟩]⟩,
          fun _ => some (.dict [("homes", .list [PyVal.dict []])]),
          false, fun _ => Option.none⟩
        "b" "compared/x.png" "t1").2.written.length = 1 :=
  artifacts_degrade_softly
    ⟨.error "no custom prompt", .ok [],
      fun _ => ⟨some "end_turn", [⟨"text", "payload"⟩]⟩,
      fun _ => some (.dict [("homes", .list [PyVal.dict []])]),
      false, fun _ => Option.none⟩
    "b" "compared/x.png" "t1" [] (.dict [("homes", .list [PyVal.dict []])]) 1
    ⟨⟨1, 0, 1⟩, [⟨"house-001", "needs_human_review", PyVal.none, 0,
      "No reason provided by model", Option.none⟩]⟩
    (by decide) rfl rfl rfl (Or.inl rfl)

end Adjuster
